import Mathlib

/-
Shallow embedding of the generic OAuth2/OIDC authorization-code flow engine
of the better-auth repository: the refresh-token client, the generic OAuth
plugin endpoints (sign-in initiation, callback handling), and the default
user-info extraction.  Network effects (discovery fetch, token exchange,
userinfo fetch, account collaborators) are modelled as oracle inputs, and the
functions additionally return a record of the effectful calls they perform.
-/

/-- JavaScript truthiness of an optional string: present and nonempty. -/
def truthyS : Option String → Bool
  | some s => s != ""
  | none => false

/-- JavaScript template interpolation of a possibly undefined string. -/
def jsShow : Option String → String
  | some s => s
  | none => "undefined"

/-- Lowercasing as toLowerCase performs it, written as an explicit character
map so that concrete runs reduce. -/
def lowerStr (s : String) : String := String.mk (s.data.map Char.toLower)

/-- Removes every pair with the given key (URLSearchParams delete). -/
def removeParam (ps : List (String × String)) (k : String) : List (String × String) :=
  ps.filter (fun kv => kv.1 != k)

/-- URLSearchParams set semantics: replace the first occurrence of the key in
place, drop any later occurrence, append when absent. -/
def setParam : List (String × String) → String → String → List (String × String)
  | [], k, v => [(k, v)]
  | (k0, v0) :: rest, k, v =>
    if k0 == k then (k, v) :: removeParam rest k
    else (k0, v0) :: setParam rest k v

/-- A URL represented structurally: everything before the query, plus the
ordered query parameters.  String serialization and percent-encoding are
abstracted away; new URL(s) round-trips through this representation. -/
structure UrlQ where
  base : String
  params : List (String × String)
deriving Repr, DecidableEq

def urlSet (u : UrlQ) (k v : String) : UrlQ :=
  { u with params := setParam u.params k v }

def urlGet (u : UrlQ) (k : String) : Option String :=
  (u.params.find? (fun kv => kv.1 == k)).map (fun kv => kv.2)

/-- Placeholder for the base64 encoding performed by btoa; no claim depends on
the encoding itself, only on where the encoded credentials are placed. -/
def base64Encode (s : String) : String := s

/- ----------------------------------------------------------------------
Token exchange client: refreshAccessToken (src/unnamed/part_001).
---------------------------------------------------------------------- -/

/-- Raw JSON shape of a token endpoint response. -/
structure TokenResponse where
  access_token : String
  refresh_token : Option String := none
  expires_in : Option Nat := none
  token_type : Option String := none
  scope : Option String := none
  id_token : Option String := none
deriving Repr, DecidableEq

/-- Canonical token bundle.  Timestamps are absolute epoch milliseconds, as in
the source (Date.getTime). -/
structure OAuth2Tokens where
  accessToken : String
  refreshToken : Option String := none
  accessTokenExpiresAt : Option Int := none
  refreshTokenExpiresAt : Option Int := none
  tokenType : Option String := none
  scopes : Option (List String) := none
  idToken : Option String := none
deriving Repr, DecidableEq

structure ProviderOptions where
  clientId : String
  clientSecret : String
deriving Repr, DecidableEq

/-- The providerConfig argument of refreshAccessToken. -/
inductive AuthMethod where
  | basic
  | post
deriving Repr, DecidableEq

structure RefreshProviderConfig where
  tokenEndpoint : String
  authentication : Option AuthMethod := none
  extraParams : Option (List (String × String)) := none
deriving Repr, DecidableEq

/-- The outgoing HTTP request assembled by the token client. -/
structure HttpRequest where
  headers : List (String × String)
  body : List (String × String)
deriving Repr, DecidableEq

structure RefreshOutcome where
  request : HttpRequest
  result : Except Unit OAuth2Tokens
deriving Repr

/-- Embedding of refreshAccessToken.  The HTTP call is an oracle input
(fetchResult models the parsed response or a fetch error, which the source
rethrows); now is the receipt time in epoch milliseconds. -/
def refreshAccessToken (refreshTok : String) (options : ProviderOptions)
    (cfg : RefreshProviderConfig) (fetchResult : Except Unit TokenResponse)
    (now : Int) : RefreshOutcome :=
  let headers0 : List (String × String) :=
    [("content-type", "application/x-www-form-urlencoded"),
     ("accept", "application/json")]
  let body1 := setParam (setParam [] "grant_type" "refresh_token")
    "refresh_token" refreshTok
  let authBasic := cfg.authentication == some AuthMethod.basic
  let headers1 :=
    if authBasic then
      headers0 ++
        [("authorization",
          "Basic " ++ base64Encode (options.clientId ++ ":" ++ options.clientSecret))]
    else headers0
  let body2 :=
    if authBasic then body1
    else
      setParam (setParam body1 "client_id" options.clientId)
        "client_secret" options.clientSecret
  let body3 :=
    match cfg.extraParams with
    | some ps => ps.foldl (fun b kv => setParam b kv.1 kv.2) body2
    | none => body2
  let req : HttpRequest := { headers := headers1, body := body3 }
  match fetchResult with
  | Except.error e => { request := req, result := Except.error e }
  | Except.ok data =>
    let base : OAuth2Tokens :=
      { accessToken := data.access_token,
        refreshToken := data.refresh_token,
        tokenType := data.token_type,
        scopes := data.scope.map (fun s => s.splitOn " "),
        idToken := data.id_token }
    let toks :=
      match data.expires_in with
      | some e => if e != 0 then
          { base with accessTokenExpiresAt := some (now + (e : Int) * 1000) }
        else base
      | none => base
    { request := req, result := Except.ok toks }

/-- Projection of the access-token expiry out of a refresh result. -/
def resultExpiry : Except Unit OAuth2Tokens → Option Int
  | Except.ok t => t.accessTokenExpiresAt
  | Except.error _ => none

/- ----------------------------------------------------------------------
Generic OAuth plugin configuration (src/unnamed/part_002).
---------------------------------------------------------------------- -/

/-- Normalized identity record as the plugin passes it around (the fields the
default extraction and the callback read). -/
structure UserRec where
  id : Option String := none
  email : Option String := none
  emailVerified : Option Bool := none
  name : Option String := none
  image : Option String := none
deriving Repr, DecidableEq

/-- One GenericOAuthConfig entry.  authorizationUrl is kept structurally as a
URL; tokenUrl, userInfoUrl and discoveryUrl stay plain strings since only
their presence and identity matter to the flow.  The custom getUserInfo and
mapProfileToUser hooks are optional pure functions. -/
structure GenericOAuthConfig where
  providerId : String
  discoveryUrl : Option String := none
  authorizationUrl : Option UrlQ := none
  tokenUrl : Option String := none
  userInfoUrl : Option String := none
  clientId : String
  clientSecret : String
  scopes : Option (List String) := none
  redirectURI : Option String := none
  responseType : Option String := none
  prompt : Option String := none
  pkce : Bool := false
  accessType : Option String := none
  getUserInfoFn : Option (OAuth2Tokens → Option UserRec) := none
  mapProfileToUserFn : Option (UserRec → UserRec) := none
  authorizationUrlParams : Option (List (String × String)) := none
  disableImplicitSignUp : Bool := false
  disableSignUp : Bool := false
  authentication : Option AuthMethod := none

/-- Parsed discovery document (the data field of the discovery fetch). -/
structure DiscoveryDoc where
  authorization_endpoint : UrlQ
  token_endpoint : String
  userinfo_endpoint : String
deriving Repr, DecidableEq

/-- Placeholder for the PKCE code-challenge derivation; no claim depends on
the derived value, only on whether the parameters are attached. -/
def codeChallengeOf (verifier : String) : String := verifier

/-- Applies custom authorization search parameters to a URL (set semantics,
in insertion order), the identity when none are configured. -/
def applyUrlParams (o : Option (List (String × String))) (u : UrlQ) : UrlQ :=
  match o with
  | some ps => ps.foldl (fun a kv => urlSet a kv.1 kv.2) u
  | none => u

/-- Modelled from the spec: createAuthorizationURL (the Authorization URL
Builder of section 4.2) is imported from a module outside the provided
sources.  Per the spec it returns the authorization endpoint URL with query
parameters response_type (default code), client_id, redirect_uri (the
configured override when present, else the computed callback), scope
(space-joined), state, and, when a code verifier is supplied, code_challenge
with code_challenge_method, each written with set (overwrite) semantics. -/
def createAuthorizationURL (endpoint : UrlQ) (clientId : String)
    (optionsRedirectURI : Option String) (redirectURI : String)
    (scopes : List String) (state : String)
    (codeVerifier : Option String) : UrlQ :=
  let u := urlSet endpoint "response_type" "code"
  let u := urlSet u "client_id" clientId
  let u := urlSet u "state" state
  let u := urlSet u "scope" (String.intercalate " " scopes)
  let u := urlSet u "redirect_uri"
    (if truthyS optionsRedirectURI then optionsRedirectURI.getD "" else redirectURI)
  match codeVerifier with
  | some cv =>
    urlSet (urlSet u "code_challenge" (codeChallengeOf cv))
      "code_challenge_method" "S256"
  | none => u

/- ----------------------------------------------------------------------
signInWithOAuth2 endpoint (src/unnamed/part_002, /sign-in/oauth2).
---------------------------------------------------------------------- -/

structure SignInBody where
  providerId : String
  callbackURL : Option String := none
  errorCallbackURL : Option String := none
  newUserCallbackURL : Option String := none
  disableRedirect : Bool := false
  scopes : Option (List String) := none
  requestSignUp : Bool := false

/-- Ambient context of one sign-in call: base URL, the generated state and
code verifier, and the discovery fetch outcome (data field; none both when no
discovery URL is configured and when the fetch fails). -/
structure SignInEnv where
  baseURL : String
  state : String
  codeVerifier : String
  discovery : Option DiscoveryDoc := none

inductive SignInResult where
  | ok (url : UrlQ) (redirect : Bool)
  | apiError (status : String) (message : String)
deriving Repr, DecidableEq

/-- Embedding of the signInWithOAuth2 handler body. -/
def signInWithOAuth2 (configs : List GenericOAuthConfig) (body : SignInBody)
    (env : SignInEnv) : SignInResult :=
  match configs.find? (fun c => c.providerId == body.providerId) with
  | none =>
    SignInResult.apiError "BAD_REQUEST"
      ("No config found for provider " ++ body.providerId)
  | some c =>
    let resolved :=
      match (if truthyS c.discoveryUrl then env.discovery else none) with
      | some d => (some d.authorization_endpoint, some d.token_endpoint)
      | none => (c.authorizationUrl, c.tokenUrl)
    match resolved.1 with
    | none => SignInResult.apiError "BAD_REQUEST" "Invalid OAuth configuration"
    | some au0 =>
      if !truthyS resolved.2 then
        SignInResult.apiError "BAD_REQUEST" "Invalid OAuth configuration"
      else
        let au := applyUrlParams c.authorizationUrlParams au0
        let scopes :=
          match body.scopes with
          | some bs => bs ++ c.scopes.getD []
          | none => c.scopes.getD []
        let authUrl := createAuthorizationURL au c.clientId c.redirectURI
          (env.baseURL ++ "/oauth2/callback/" ++ c.providerId) scopes env.state
          (if c.pkce then some env.codeVerifier else none)
        let authUrl :=
          if truthyS c.responseType && (c.responseType != some "code") then
            urlSet authUrl "response_type" (c.responseType.getD "")
          else authUrl
        let authUrl :=
          if truthyS c.prompt then urlSet authUrl "prompt" (c.prompt.getD "")
          else authUrl
        let authUrl :=
          if truthyS c.accessType then
            urlSet authUrl "access_type" (c.accessType.getD "")
          else authUrl
        SignInResult.ok authUrl (!body.disableRedirect)

/-- The produced authorization URL, when sign-in succeeded. -/
def signInResultUrl : SignInResult → Option UrlQ
  | SignInResult.ok u _ => some u
  | SignInResult.apiError _ _ => none

/- ----------------------------------------------------------------------
Provider wrapper around refreshAccessToken (src/unnamed/part_002,
genericProviders refreshAccessToken).
---------------------------------------------------------------------- -/

inductive RefreshWrapperResult where
  | apiError (status : String) (message : String)
  | ok (outcome : RefreshOutcome)
deriving Repr

/-- Embedding of the per-provider refreshAccessToken wrapper built in init.
discoveredTokenEndpoint models the token_endpoint of the discovery data when
the fetch returns data.  Note the wrapper calls refreshAccessToken with a
providerConfig containing only the token endpoint: the authentication and
extraParams settings of the provider config are not forwarded. -/
def providerRefreshAccessToken (c : GenericOAuthConfig)
    (discoveredTokenEndpoint : Option String) (refreshTok : String)
    (fetchResult : Except Unit TokenResponse) (now : Int) :
    RefreshWrapperResult :=
  let finalTokenUrl :=
    match (if truthyS c.discoveryUrl then discoveredTokenEndpoint else none) with
    | some te => some te
    | none => c.tokenUrl
  if !truthyS finalTokenUrl then
    RefreshWrapperResult.apiError "BAD_REQUEST"
      "Invalid OAuth configuration. Token URL not found."
  else
    RefreshWrapperResult.ok
      (refreshAccessToken refreshTok
        { clientId := c.clientId, clientSecret := c.clientSecret }
        { tokenEndpoint := finalTokenUrl.getD "" }
        fetchResult now)

/- ----------------------------------------------------------------------
Default user-info extraction (src/unnamed/part_002, getUserInfo).
---------------------------------------------------------------------- -/

/-- Decoded ID-token payload as the source reads it. -/
structure JwtPayload where
  sub : Option String := none
  email : Option String := none
  email_verified : Option Bool := none
  name : Option String := none
  picture : Option String := none
deriving Repr, DecidableEq

/-- Userinfo endpoint JSON body (the data field of the fetch; none when the
fetch yields no data, in which case the source still builds a record whose
fields are all undefined). -/
structure UserInfoData where
  sub : Option String := none
  email : Option String := none
  email_verified : Option Bool := none
  name : Option String := none
  picture : Option String := none
deriving Repr, DecidableEq

/-- Embedding of the module-level getUserInfo.  decode models decodeJwt (none
stands for a decode that yields no usable payload), fetched models the
userinfo HTTP response data.  Returns the extracted record together with the
number of HTTP requests made to the userinfo endpoint. -/
def getUserInfo (tokens : OAuth2Tokens) (finalUserInfoUrl : Option String)
    (decode : String → Option JwtPayload) (fetched : Option UserInfoData) :
    Option UserRec × Nat :=
  let idPath : Option UserRec :=
    match tokens.idToken with
    | some idt =>
      if idt != "" then
        match decode idt with
        | some p =>
          if truthyS p.sub && truthyS p.email then
            some { id := p.sub, email := p.email,
                   emailVerified := p.email_verified, name := p.name,
                   image := p.picture }
          else none
        | none => none
      else none
    | none => none
  match idPath with
  | some u => (some u, 0)
  | none =>
    if truthyS finalUserInfoUrl then
      (some { id := fetched.bind (fun d => d.sub),
              email := fetched.bind (fun d => d.email),
              emailVerified := fetched.bind (fun d => d.email_verified),
              name := fetched.bind (fun d => d.name),
              image := fetched.bind (fun d => d.picture) }, 1)
    else (none, 0)

/- ----------------------------------------------------------------------
oAuth2Callback endpoint (src/unnamed/part_002, /oauth2/callback/:providerId).
---------------------------------------------------------------------- -/

structure CallbackQuery where
  code : Option String := none
  error : Option String := none
  error_description : Option String := none
  state : Option String := none
deriving Repr, DecidableEq

structure LinkInfo where
  userId : String
  email : String
deriving Repr, DecidableEq

/-- The record returned by parseState after the state token is consumed. -/
structure FlowState where
  callbackURL : String
  codeVerifier : Option String := none
  errorURL : Option String := none
  requestSignUp : Bool := false
  newUserURL : Option String := none
  link : Option LinkInfo := none
deriving Repr, DecidableEq

/-- Outcome of the handleOAuthUserInfo collaborator: an error message, or
success data with the registration flag (session and user abstracted). -/
structure HandleResult where
  error : Option String := none
  isRegister : Bool := false
deriving Repr, DecidableEq

/-- Ambient context of one callback call.  parsedState models a successfully
parsed and consumed state (state validation itself is delegated to the state
codec collaborator); exchange models the validateAuthorizationCode outcome
(error for a thrown exchange failure, ok none for an undefined resolution);
the remaining fields are the other collaborator oracles. -/
structure CallbackEnv where
  baseURL : String
  onAPIErrorErrorURL : Option String := none
  allowDifferentEmails : Option Bool := none
  parsedState : FlowState
  discovery : Option DiscoveryDoc := none
  exchange : Except Unit (Option OAuth2Tokens)
  decodeJwt : String → Option JwtPayload := fun _ => none
  userinfoData : Option UserInfoData := none
  createAccountOk : Bool := true
  handleResult : HandleResult := {}

inductive CallbackResult where
  | redirect (url : String)
  | apiError (status : String) (message : String)
deriving Repr, DecidableEq

/-- Record of the effectful calls one callback run performs. -/
structure CallbackFx where
  tokenCalls : Nat := 0
  tokenEndpointUsed : Option String := none
  userinfoCalls : Nat := 0
  userinfoUrlUsed : Option String := none
  createAccountCalls : Nat := 0
  handleUserInfoCalls : Nat := 0
  sessionSet : Bool := false
deriving Repr, DecidableEq

/-- Endpoint resolution at callback time: discovery data, when present,
replaces both the token and the userinfo endpoint. -/
def resolveCallbackEndpoints (p : GenericOAuthConfig)
    (disc : Option DiscoveryDoc) : Option String × Option String :=
  match (if truthyS p.discoveryUrl then disc else none) with
  | some d => (some d.token_endpoint, some d.userinfo_endpoint)
  | none => (p.tokenUrl, p.userInfoUrl)

/-- The redirectOnError target: errorURL, else callbackURL, else the generic
error page, with the error code appended. -/
def redirectOnErrorUrl (st : FlowState) (baseURL : String) (e : String) : String :=
  (if truthyS st.errorURL then st.errorURL.getD ""
   else if st.callbackURL != "" then st.callbackURL
   else baseURL ++ "/error") ++ "?error=" ++ e

/-- The error URL used before any state exists: the configured onAPIError
errorURL, else the generic error page. -/
def defaultErrorURL (env : CallbackEnv) : String :=
  if truthyS env.onAPIErrorErrorURL then env.onAPIErrorErrorURL.getD ""
  else env.baseURL ++ "/error"

/-- JavaScript truthiness of the optional chain userInfo e-mail access. -/
def userEmailTruthy : Option UserRec → Bool
  | some u => truthyS u.email
  | none => false

/-- User-info extraction as the callback performs it: the provider-level
custom hook when configured, else the default extraction against the resolved
userinfo endpoint. -/
def callbackExtractUserInfo (provider : GenericOAuthConfig)
    (tokens : OAuth2Tokens) (env : CallbackEnv) : Option UserRec × Nat :=
  match provider.getUserInfoFn with
  | some f => (f tokens, 0)
  | none =>
    getUserInfo tokens (resolveCallbackEndpoints provider env.discovery).2
      env.decodeJwt env.userinfoData

/-- Embedding of the oAuth2Callback handler body.  The try block of the
source wraps both the missing-token-endpoint check and the code exchange, and
its catch converts any thrown error into the oauth_code_verification_failed
redirect; the handler therefore reaches the structured BAD_REQUEST response
only for an undefined exchange resolution, which happens after the catch. -/
def oAuth2Callback (configs : List GenericOAuthConfig) (providerIdParam : String)
    (q : CallbackQuery) (env : CallbackEnv) : CallbackResult × CallbackFx :=
  if truthyS q.error || !truthyS q.code then
    (CallbackResult.redirect
      (defaultErrorURL env ++ "?error=" ++
        (if truthyS q.error then q.error.getD "" else "oAuth_code_missing") ++
        "&error_description=" ++ jsShow q.error_description), {})
  else
    match configs.find? (fun p => p.providerId == providerIdParam) with
    | none =>
      (CallbackResult.apiError "BAD_REQUEST"
        ("No config found for provider " ++ providerIdParam), {})
    | some provider =>
      let st := env.parsedState
      let resolved := resolveCallbackEndpoints provider env.discovery
      if !truthyS resolved.1 then
        (CallbackResult.redirect
          (redirectOnErrorUrl st env.baseURL "oauth_code_verification_failed"), {})
      else
        let fx0 : CallbackFx := { tokenCalls := 1, tokenEndpointUsed := resolved.1 }
        match env.exchange with
        | Except.error _ =>
          (CallbackResult.redirect
            (redirectOnErrorUrl st env.baseURL "oauth_code_verification_failed"),
           fx0)
        | Except.ok none =>
          (CallbackResult.apiError "BAD_REQUEST" "Invalid OAuth configuration.",
           fx0)
        | Except.ok (some tokens) =>
          let extracted := callbackExtractUserInfo provider tokens env
          let fx1 := { fx0 with
            userinfoCalls := extracted.2,
            userinfoUrlUsed := if extracted.2 == 0 then none else resolved.2 }
          if !userEmailTruthy extracted.1 then
            (CallbackResult.redirect
              (redirectOnErrorUrl st env.baseURL "email_is_missing"), fx1)
          else
            let u := (extracted.1).getD {}
            match st.link with
            | some link =>
              if (env.allowDifferentEmails != some true) &&
                  (link.email != lowerStr (u.email.getD "")) then
                (CallbackResult.redirect
                  (redirectOnErrorUrl st env.baseURL "email_doesn\x27t_match"),
                 fx1)
              else
                let fx2 := { fx1 with createAccountCalls := 1 }
                if !env.createAccountOk then
                  (CallbackResult.redirect
                    (redirectOnErrorUrl st env.baseURL "unable_to_link_account"),
                   fx2)
                else
                  (CallbackResult.redirect st.callbackURL, fx2)
            | none =>
              let fx2 := { fx1 with handleUserInfoCalls := 1 }
              match env.handleResult.error with
              | some err =>
                (CallbackResult.redirect
                  (redirectOnErrorUrl st env.baseURL
                    (String.intercalate "_" (err.splitOn " "))), fx2)
              | none =>
                let fx3 := { fx2 with sessionSet := true }
                (CallbackResult.redirect
                  (if env.handleResult.isRegister then
                    (if truthyS st.newUserURL then st.newUserURL.getD ""
                     else st.callbackURL)
                   else st.callbackURL), fx3)

/- ----------------------------------------------------------------------
Projection helpers and concrete inputs used by the verification below.
---------------------------------------------------------------------- -/

def resultIsOk : Except Unit OAuth2Tokens → Bool
  | Except.ok _ => true
  | Except.error _ => false

def headerValue (r : HttpRequest) (k : String) : Option String :=
  (r.headers.find? (fun kv => kv.1 == k)).map (fun kv => kv.2)

def bodyValue (r : HttpRequest) (k : String) : Option String :=
  (r.body.find? (fun kv => kv.1 == k)).map (fun kv => kv.2)

def wrapperOutcome : RefreshWrapperResult → Option RefreshOutcome
  | RefreshWrapperResult.ok o => some o
  | RefreshWrapperResult.apiError _ _ => none

/-- Provider with neither a static token URL nor a discovery URL. -/
def cfgNoTokenUrl : GenericOAuthConfig :=
  { providerId := "p", clientId := "cid", clientSecret := "sec" }

/-- Callback context for the missing-token-endpoint run. -/
def envNoTokenUrl : CallbackEnv :=
  { baseURL := "https://app",
    parsedState := { callbackURL := "https://app/cb" },
    exchange := Except.ok none }

/-- Provider whose custom authorization parameters carry a response_type
entry colliding with the default the URL builder sets. -/
def cfgCustomResponseType : GenericOAuthConfig :=
  { providerId := "p", clientId := "cid", clientSecret := "sec",
    authorizationUrl := some { base := "https://p/auth", params := [] },
    tokenUrl := some "https://p/token",
    authorizationUrlParams := some [("response_type", "token")] }

def envSignIn : SignInEnv :=
  { baseURL := "https://app", state := "st", codeVerifier := "cv" }

/-- Provider configured for HTTP Basic client authentication. -/
def cfgBasicAuth : GenericOAuthConfig :=
  { providerId := "p", clientId := "cid", clientSecret := "sec",
    tokenUrl := some "https://p/token",
    authentication := some AuthMethod.basic }

/-- Token bundle carrying an ID token, for the short-circuit run. -/
def tokIdToken : OAuth2Tokens := { accessToken := "at", idToken := some "jwt" }

def payloadFull : JwtPayload :=
  { sub := some "u1", email := some "user@x", email_verified := some true,
    name := some "N", picture := some "pic" }

def decodeJwtOracle : String → Option JwtPayload :=
  fun s => if s == "jwt" then some payloadFull else none

/-- Provider with static endpoints only, used by the concrete callback runs. -/
def cfgStatic : GenericOAuthConfig :=
  { providerId := "p", clientId := "cid", clientSecret := "sec",
    tokenUrl := some "https://p/token",
    userInfoUrl := some "https://p/ui" }

/-- Callback context whose userinfo response carries no e-mail. -/
def envNoEmail : CallbackEnv :=
  { baseURL := "https://app",
    parsedState := { callbackURL := "https://app/cb" },
    exchange := Except.ok (some { accessToken := "at" }),
    userinfoData := some {} }

/-- Callback context for a link flow whose link target e-mail differs from
the e-mail the userinfo endpoint reports. -/
def envLinkMismatch : CallbackEnv :=
  { baseURL := "https://app",
    parsedState := { callbackURL := "https://app/cb",
                     link := some { userId := "u1", email := "linked@x" } },
    exchange := Except.ok (some { accessToken := "at" }),
    userinfoData := some { email := some "other@x" } }

/-- Provider with a discovery URL and static endpoints that discovery data
must override. -/
def cfgDiscovery : GenericOAuthConfig :=
  { providerId := "p", clientId := "cid", clientSecret := "sec",
    discoveryUrl := some "https://p/.well-known/openid-configuration",
    authorizationUrl := some { base := "https://static/auth", params := [] },
    tokenUrl := some "https://static/token",
    userInfoUrl := some "https://static/ui" }

def docDiscovered : DiscoveryDoc :=
  { authorization_endpoint := { base := "https://disc/auth", params := [] },
    token_endpoint := "https://disc/token",
    userinfo_endpoint := "https://disc/ui" }

def envSignInDisc : SignInEnv :=
  { baseURL := "https://app", state := "st", codeVerifier := "cv",
    discovery := some docDiscovered }

def envCallbackDisc : CallbackEnv :=
  { baseURL := "https://app",
    parsedState := { callbackURL := "https://app/cb" },
    discovery := some docDiscovered,
    exchange := Except.ok (some { accessToken := "at" }),
    userinfoData := some { email := some "user@x", sub := some "u1" } }

/-- Query of a successful provider redirect. -/
def qWithCode : CallbackQuery := { code := some "abc" }

/-- Query of a denied provider redirect. -/
def qDenied : CallbackQuery :=
  { error := some "access_denied", error_description := some "denied" }

/- ----------------------------------------------------------------------
Helper lemmas.
---------------------------------------------------------------------- -/

@[simp] theorem truthyS_some (s : String) : truthyS (some s) = (s != "") := rfl

@[simp] theorem truthyS_none : truthyS (none : Option String) = false := rfl

@[simp] theorem urlSet_base (u : UrlQ) (k v : String) :
    (urlSet u k v).base = u.base := rfl

theorem foldl_urlSet_base (ps : List (String × String)) (u : UrlQ) :
    (ps.foldl (fun a kv => urlSet a kv.1 kv.2) u).base = u.base := by
  induction ps generalizing u with
  | nil => rfl
  | cons kv rest ih => simpa using ih (urlSet u kv.1 kv.2)

@[simp] theorem applyUrlParams_base (o : Option (List (String × String)))
    (u : UrlQ) : (applyUrlParams o u).base = u.base := by
  cases o with
  | none => rfl
  | some ps => simpa [applyUrlParams] using foldl_urlSet_base ps u

@[simp] theorem createAuthorizationURL_base (endpoint : UrlQ) (cid : String)
    (orid : Option String) (rid : String) (scopes : List String) (st : String)
    (cv : Option String) :
    (createAuthorizationURL endpoint cid orid rid scopes st cv).base =
      endpoint.base := by
  cases cv <;> rfl

@[simp] theorem ite_urlSet_base (c : Prop) [Decidable c] (u : UrlQ)
    (k v : String) : (if c then urlSet u k v else u).base = u.base := by
  split <;> rfl

/- ----------------------------------------------------------------------
Claim C8.
---------------------------------------------------------------------- -/

/-- C8: when the token endpoint response carries expires_in = 3600 and is
received at time now (epoch milliseconds), the refresh client returns a
bundle whose accessTokenExpiresAt is exactly now plus 3600 seconds. -/
theorem refresh_expiry_is_receipt_plus_expires_in (refreshTok : String)
    (opts : ProviderOptions) (cfg : RefreshProviderConfig)
    (data : TokenResponse) (now : Int)
    (h : data.expires_in = some 3600) :
    resultExpiry (refreshAccessToken refreshTok opts cfg (Except.ok data) now).result =
      some (now + 3600 * 1000) := by
  simp [refreshAccessToken, resultExpiry, h]

/-- C8 witness: concrete run at now = 5000 with expires_in = 3600. -/
theorem refresh_expiry_is_receipt_plus_expires_in_witness :
    ({ access_token := "at", expires_in := some 3600 } : TokenResponse).expires_in = some 3600 ∧
    resultExpiry (refreshAccessToken "rt" { clientId := "cid", clientSecret := "sec" }
        { tokenEndpoint := "https://p/token" }
        (Except.ok { access_token := "at", expires_in := some 3600 }) 5000).result =
      some (5000 + 3600 * 1000) :=
  ⟨rfl, refresh_expiry_is_receipt_plus_expires_in "rt"
    { clientId := "cid", clientSecret := "sec" }
    { tokenEndpoint := "https://p/token" }
    { access_token := "at", expires_in := some 3600 } 5000 rfl⟩

/- ----------------------------------------------------------------------
Claim C10.
---------------------------------------------------------------------- -/

/-- C10: when the refresh response omits expires_in or reports zero, the
returned bundle carries no accessTokenExpiresAt; zero behaves like absence. -/
theorem refresh_no_expiry_when_absent_or_zero (refreshTok : String)
    (opts : ProviderOptions) (cfg : RefreshProviderConfig)
    (data : TokenResponse) (now : Int)
    (h : data.expires_in = none ∨ data.expires_in = some 0) :
    resultIsOk (refreshAccessToken refreshTok opts cfg (Except.ok data) now).result = true ∧
    resultExpiry (refreshAccessToken refreshTok opts cfg (Except.ok data) now).result = none := by
  rcases h with h | h <;>
    exact ⟨by simp [refreshAccessToken, resultIsOk, h],
           by simp [refreshAccessToken, resultExpiry, h]⟩

/-- C10 witness: concrete runs with expires_in absent and with expires_in
zero both yield a bundle with no expiry. -/
theorem refresh_no_expiry_when_absent_or_zero_witness :
    (({ access_token := "at" } : TokenResponse).expires_in = none ∨
      ({ access_token := "at" } : TokenResponse).expires_in = some 0) ∧
    (resultIsOk (refreshAccessToken "rt" { clientId := "cid", clientSecret := "sec" }
        { tokenEndpoint := "https://p/token" }
        (Except.ok { access_token := "at" }) 5000).result = true ∧
     resultExpiry (refreshAccessToken "rt" { clientId := "cid", clientSecret := "sec" }
        { tokenEndpoint := "https://p/token" }
        (Except.ok { access_token := "at" }) 5000).result = none) :=
  ⟨Or.inl rfl, refresh_no_expiry_when_absent_or_zero "rt"
    { clientId := "cid", clientSecret := "sec" }
    { tokenEndpoint := "https://p/token" }
    { access_token := "at" } 5000 (Or.inl rfl)⟩

/- ----------------------------------------------------------------------
Claim C3.
---------------------------------------------------------------------- -/

/-- C3: when the token bundle carries an ID token that decodes to a payload
with truthy sub and email claims, the default user-info extraction returns
the identity derived from that payload and performs zero requests to the
userinfo endpoint, whatever userinfo endpoint or response is available. -/
theorem id_token_short_circuits_userinfo (tokens : OAuth2Tokens)
    (finalUrl : Option String) (decode : String → Option JwtPayload)
    (fetched : Option UserInfoData) (idt : String) (p : JwtPayload)
    (hid : tokens.idToken = some idt) (hne : idt ≠ "")
    (hdec : decode idt = some p)
    (hsub : truthyS p.sub = true) (hem : truthyS p.email = true) :
    getUserInfo tokens finalUrl decode fetched =
      (some { id := p.sub, email := p.email, emailVerified := p.email_verified,
              name := p.name, image := p.picture }, 0) := by
  simp [getUserInfo, hid, hdec, hsub, hem, bne_iff_ne, hne]

/-- C3 witness: concrete bundle with an ID token decoding to a full payload,
run against a configured userinfo endpoint. -/
theorem id_token_short_circuits_userinfo_witness :
    tokIdToken.idToken = some "jwt" ∧ ("jwt" : String) ≠ "" ∧
    decodeJwtOracle "jwt" = some payloadFull ∧
    truthyS payloadFull.sub = true ∧ truthyS payloadFull.email = true ∧
    getUserInfo tokIdToken (some "https://p/ui") decodeJwtOracle (some {}) =
      (some { id := payloadFull.sub, email := payloadFull.email,
              emailVerified := payloadFull.email_verified,
              name := payloadFull.name, image := payloadFull.picture }, 0) :=
  ⟨rfl, by decide, rfl, rfl, rfl,
   id_token_short_circuits_userinfo tokIdToken (some "https://p/ui")
     decodeJwtOracle (some {}) "jwt" payloadFull rfl (by decide) rfl rfl rfl⟩

/- ----------------------------------------------------------------------
Claim C9.
---------------------------------------------------------------------- -/

/-- C9: a callback whose query carries a truthy error parameter or lacks a
truthy code parameter redirects to the error URL with the error code (or the
code-missing token) and the error_description as query parameters, and makes
zero calls to the token endpoint. -/
theorem error_query_redirects_without_token_call
    (configs : List GenericOAuthConfig) (pid : String) (q : CallbackQuery)
    (env : CallbackEnv)
    (h : (truthyS q.error || !truthyS q.code) = true) :
    (oAuth2Callback configs pid q env).1 =
      CallbackResult.redirect
        (defaultErrorURL env ++ "?error=" ++
          (if truthyS q.error then q.error.getD "" else "oAuth_code_missing") ++
          "&error_description=" ++ jsShow q.error_description) ∧
    (oAuth2Callback configs pid q env).2.tokenCalls = 0 := by
  constructor <;> simp [oAuth2Callback, h]

/-- C9 witness: concrete denied callback with error=access_denied. -/
theorem error_query_redirects_without_token_call_witness :
    (truthyS qDenied.error || !truthyS qDenied.code) = true ∧
    ((oAuth2Callback [cfgStatic] "p" qDenied envNoEmail).1 =
      CallbackResult.redirect
        (defaultErrorURL envNoEmail ++ "?error=" ++
          (if truthyS qDenied.error then qDenied.error.getD ""
           else "oAuth_code_missing") ++
          "&error_description=" ++ jsShow qDenied.error_description) ∧
     (oAuth2Callback [cfgStatic] "p" qDenied envNoEmail).2.tokenCalls = 0) :=
  ⟨rfl, error_query_redirects_without_token_call [cfgStatic] "p" qDenied
    envNoEmail rfl⟩

/- ----------------------------------------------------------------------
Claim C2.
---------------------------------------------------------------------- -/

/-- C2 evaluation: with a valid code and consumed state but no token endpoint
(none configured, no discovery), the callback does not surface the
BAD_REQUEST configuration error: the throw sits inside the try block whose
catch converts it, so the caller receives a redirect carrying
oauth_code_verification_failed, with zero token endpoint calls. -/
theorem missing_token_endpoint_is_redirected :
    oAuth2Callback [cfgNoTokenUrl] "p" qWithCode envNoTokenUrl =
      (CallbackResult.redirect
        "https://app/cb?error=oauth_code_verification_failed", {}) := by
  decide

/- ----------------------------------------------------------------------
Claim C6.
---------------------------------------------------------------------- -/

/-- C6 evaluation: a custom authorizationUrlParams entry for response_type is
applied to the endpoint URL before the URL builder runs, so the builder
default overwrites it: the final authorization URL carries
response_type=code, not the configured custom value token. -/
theorem custom_response_type_param_is_overwritten :
    cfgCustomResponseType.authorizationUrlParams =
      some [("response_type", "token")] ∧
    (signInResultUrl (signInWithOAuth2 [cfgCustomResponseType]
        { providerId := "p" } envSignIn)).map (fun u => urlGet u "response_type") =
      some (some "code") := by
  constructor
  · rfl
  · decide

/- ----------------------------------------------------------------------
Claim C7.
---------------------------------------------------------------------- -/

/-- C7 evaluation: for a provider configured with authentication = basic, the
plugin refresh wrapper drops the authentication setting when it calls the
refresh client, so the refresh request carries the client credentials as body
parameters and no authorization header; the underlying refresh client, called
directly with authentication = basic as its own documentation describes, does
produce the Basic header and keeps the credentials out of the body. -/
theorem refresh_wrapper_drops_basic_authentication :
    (∃ o, providerRefreshAccessToken cfgBasicAuth none "rt" (Except.error ()) 0 =
        RefreshWrapperResult.ok o ∧
      headerValue o.request "authorization" = none ∧
      bodyValue o.request "client_id" = some "cid" ∧
      bodyValue o.request "client_secret" = some "sec") ∧
    headerValue (refreshAccessToken "rt" { clientId := "cid", clientSecret := "sec" }
        { tokenEndpoint := "https://p/token", authentication := some AuthMethod.basic }
        (Except.error ()) 0).request "authorization" =
      some ("Basic " ++ base64Encode "cid:sec") ∧
    bodyValue (refreshAccessToken "rt" { clientId := "cid", clientSecret := "sec" }
        { tokenEndpoint := "https://p/token", authentication := some AuthMethod.basic }
        (Except.error ()) 0).request "client_id" = none :=
  ⟨⟨_, rfl, rfl, rfl, rfl⟩, rfl, rfl⟩

/- ----------------------------------------------------------------------
Claim C4.
---------------------------------------------------------------------- -/

/-- C4: whenever the extracted user info carries no truthy e-mail, the
callback redirects with email_is_missing and performs no call to the
handleOAuthUserInfo collaborator and no account creation. -/
theorem missing_email_redirects (configs : List GenericOAuthConfig)
    (pid : String) (q : CallbackQuery) (env : CallbackEnv)
    (provider : GenericOAuthConfig) (tokens : OAuth2Tokens)
    (hqe : truthyS q.error = false) (hqc : truthyS q.code = true)
    (hfind : configs.find? (fun p => p.providerId == pid) = some provider)
    (hurl : truthyS (resolveCallbackEndpoints provider env.discovery).1 = true)
    (hex : env.exchange = Except.ok (some tokens))
    (hui : userEmailTruthy (callbackExtractUserInfo provider tokens env).1 = false) :
    (oAuth2Callback configs pid q env).1 =
      CallbackResult.redirect
        (redirectOnErrorUrl env.parsedState env.baseURL "email_is_missing") ∧
    (oAuth2Callback configs pid q env).2.handleUserInfoCalls = 0 ∧
    (oAuth2Callback configs pid q env).2.createAccountCalls = 0 := by
  refine ⟨?_, ?_, ?_⟩ <;>
    simp [oAuth2Callback, hqe, hqc, hfind, hurl, hex, hui]

/-- C4 witness: concrete callback whose userinfo response has no e-mail. -/
theorem missing_email_redirects_witness :
    truthyS qWithCode.error = false ∧ truthyS qWithCode.code = true ∧
    [cfgStatic].find? (fun p => p.providerId == "p") = some cfgStatic ∧
    truthyS (resolveCallbackEndpoints cfgStatic envNoEmail.discovery).1 = true ∧
    envNoEmail.exchange = Except.ok (some { accessToken := "at" }) ∧
    userEmailTruthy (callbackExtractUserInfo cfgStatic { accessToken := "at" }
      envNoEmail).1 = false ∧
    ((oAuth2Callback [cfgStatic] "p" qWithCode envNoEmail).1 =
      CallbackResult.redirect
        (redirectOnErrorUrl envNoEmail.parsedState envNoEmail.baseURL
          "email_is_missing") ∧
     (oAuth2Callback [cfgStatic] "p" qWithCode envNoEmail).2.handleUserInfoCalls = 0 ∧
     (oAuth2Callback [cfgStatic] "p" qWithCode envNoEmail).2.createAccountCalls = 0) :=
  ⟨rfl, rfl, rfl, rfl, rfl, rfl,
   missing_email_redirects [cfgStatic] "p" qWithCode envNoEmail cfgStatic
     { accessToken := "at" } rfl rfl rfl rfl rfl rfl⟩

/- ----------------------------------------------------------------------
Claim C5.
---------------------------------------------------------------------- -/

/-- C5: in a link-flow callback where allowDifferentEmails is not set to true
and the link target e-mail differs from the extracted identity e-mail (the
handler compares against the lowercased identity e-mail), the callback
redirects with the e-mail mismatch error and performs no account creation. -/
theorem link_email_mismatch_redirects (configs : List GenericOAuthConfig)
    (pid : String) (q : CallbackQuery) (env : CallbackEnv)
    (provider : GenericOAuthConfig) (tokens : OAuth2Tokens) (l : LinkInfo)
    (hqe : truthyS q.error = false) (hqc : truthyS q.code = true)
    (hfind : configs.find? (fun p => p.providerId == pid) = some provider)
    (hurl : truthyS (resolveCallbackEndpoints provider env.discovery).1 = true)
    (hex : env.exchange = Except.ok (some tokens))
    (hui : userEmailTruthy (callbackExtractUserInfo provider tokens env).1 = true)
    (hlink : env.parsedState.link = some l)
    (hallow : env.allowDifferentEmails ≠ some true)
    (hmm : l.email ≠
      lowerStr ((((callbackExtractUserInfo provider tokens env).1).getD {}).email.getD "")) :
    (oAuth2Callback configs pid q env).1 =
      CallbackResult.redirect
        (redirectOnErrorUrl env.parsedState env.baseURL "email_doesn\x27t_match") ∧
    (oAuth2Callback configs pid q env).2.createAccountCalls = 0 := by
  constructor <;>
    simp [oAuth2Callback, hqe, hqc, hfind, hurl, hex, hui, hlink,
      bne_iff_ne, hallow, hmm]

/-- C5 witness: concrete link-flow callback whose link target e-mail differs
from the e-mail the userinfo endpoint reports, with allowDifferentEmails
unset. -/
theorem link_email_mismatch_redirects_witness :
    truthyS qWithCode.error = false ∧ truthyS qWithCode.code = true ∧
    [cfgStatic].find? (fun p => p.providerId == "p") = some cfgStatic ∧
    truthyS (resolveCallbackEndpoints cfgStatic envLinkMismatch.discovery).1 = true ∧
    envLinkMismatch.exchange = Except.ok (some { accessToken := "at" }) ∧
    userEmailTruthy (callbackExtractUserInfo cfgStatic { accessToken := "at" }
      envLinkMismatch).1 = true ∧
    envLinkMismatch.parsedState.link =
      some { userId := "u1", email := "linked@x" } ∧
    envLinkMismatch.allowDifferentEmails ≠ some true ∧
    ("linked@x" : String) ≠
      lowerStr ((((callbackExtractUserInfo cfgStatic { accessToken := "at" }
        envLinkMismatch).1).getD {}).email.getD "") ∧
    ((oAuth2Callback [cfgStatic] "p" qWithCode envLinkMismatch).1 =
      CallbackResult.redirect
        (redirectOnErrorUrl envLinkMismatch.parsedState envLinkMismatch.baseURL
          "email_doesn\x27t_match") ∧
     (oAuth2Callback [cfgStatic] "p" qWithCode envLinkMismatch).2.createAccountCalls = 0) :=
  ⟨rfl, rfl, rfl, rfl, rfl, rfl, rfl, by decide, by decide,
   link_email_mismatch_redirects [cfgStatic] "p" qWithCode envLinkMismatch
     cfgStatic { accessToken := "at" }
     { userId := "u1", email := "linked@x" }
     rfl rfl rfl rfl rfl rfl rfl (by decide) (by decide)⟩

/- ----------------------------------------------------------------------
Claim C1.
---------------------------------------------------------------------- -/

/-- C1: for a provider with a discovery URL, whenever the discovery fetch
returns data, the endpoints used are the discovered ones, not the static
configuration: sign-in builds the authorization URL on the discovered
authorization endpoint, and the callback performs the code exchange against
the discovered token endpoint and the default userinfo fetch against the
discovered userinfo endpoint. -/
theorem discovery_endpoints_override_static
    (configs : List GenericOAuthConfig) (c : GenericOAuthConfig)
    (d : DiscoveryDoc) (body : SignInBody) (env1 : SignInEnv)
    (pid : String) (q : CallbackQuery) (env2 : CallbackEnv)
    (tokens : OAuth2Tokens)
    (hdisc : truthyS c.discoveryUrl = true)
    (hfind1 : configs.find? (fun p => p.providerId == body.providerId) = some c)
    (hd1 : env1.discovery = some d)
    (hte : d.token_endpoint ≠ "")
    (hue : d.userinfo_endpoint ≠ "")
    (hfind2 : configs.find? (fun p => p.providerId == pid) = some c)
    (hd2 : env2.discovery = some d)
    (hqe : truthyS q.error = false) (hqc : truthyS q.code = true)
    (hex : env2.exchange = Except.ok (some tokens))
    (hcust : c.getUserInfoFn = none)
    (hidt : tokens.idToken = none) :
    (signInResultUrl (signInWithOAuth2 configs body env1)).map UrlQ.base =
      some d.authorization_endpoint.base ∧
    (oAuth2Callback configs pid q env2).2.tokenEndpointUsed =
      some d.token_endpoint ∧
    (oAuth2Callback configs pid q env2).2.userinfoUrlUsed =
      some d.userinfo_endpoint := by
  have hres : resolveCallbackEndpoints c env2.discovery =
      (some d.token_endpoint, some d.userinfo_endpoint) := by
    simp [resolveCallbackEndpoints, hdisc, hd2]
  have hextr : callbackExtractUserInfo c tokens env2 =
      (some { id := env2.userinfoData.bind (fun x => x.sub),
              email := env2.userinfoData.bind (fun x => x.email),
              emailVerified := env2.userinfoData.bind (fun x => x.email_verified),
              name := env2.userinfoData.bind (fun x => x.name),
              image := env2.userinfoData.bind (fun x => x.picture) }, 1) := by
    simp [callbackExtractUserInfo, hcust, getUserInfo, hidt, hres,
      bne_iff_ne, hue]
  refine ⟨?_, ?_, ?_⟩
  · simp [signInWithOAuth2, hfind1, hdisc, hd1, bne_iff_ne, hte,
      signInResultUrl]
  · simp only [oAuth2Callback, hqe, hqc, hfind2, hres, hex, hextr]
    simp [bne_iff_ne, hte]
    (repeat' split) <;> rfl
  · simp only [oAuth2Callback, hqe, hqc, hfind2, hres, hex, hextr]
    simp [bne_iff_ne, hte]
    (repeat' split) <;> rfl

/-- C1 witness: concrete provider with both static endpoints and a discovery
URL whose fetch returns different endpoints; the run uses the discovered
ones. -/
theorem discovery_endpoints_override_static_witness :
    truthyS cfgDiscovery.discoveryUrl = true ∧
    [cfgDiscovery].find? (fun p => p.providerId == "p") = some cfgDiscovery ∧
    envSignInDisc.discovery = some docDiscovered ∧
    docDiscovered.token_endpoint ≠ "" ∧
    docDiscovered.userinfo_endpoint ≠ "" ∧
    envCallbackDisc.discovery = some docDiscovered ∧
    truthyS qWithCode.error = false ∧ truthyS qWithCode.code = true ∧
    envCallbackDisc.exchange = Except.ok (some { accessToken := "at" }) ∧
    cfgDiscovery.getUserInfoFn = none ∧
    ({ accessToken := "at" } : OAuth2Tokens).idToken = none ∧
    ((signInResultUrl (signInWithOAuth2 [cfgDiscovery] { providerId := "p" }
        envSignInDisc)).map UrlQ.base =
      some docDiscovered.authorization_endpoint.base ∧
     (oAuth2Callback [cfgDiscovery] "p" qWithCode envCallbackDisc).2.tokenEndpointUsed =
      some docDiscovered.token_endpoint ∧
     (oAuth2Callback [cfgDiscovery] "p" qWithCode envCallbackDisc).2.userinfoUrlUsed =
      some docDiscovered.userinfo_endpoint) :=
  ⟨rfl, rfl, rfl, by decide, by decide, rfl, rfl, rfl, rfl, rfl, rfl,
   discovery_endpoints_override_static [cfgDiscovery] cfgDiscovery
     docDiscovered { providerId := "p" } envSignInDisc "p" qWithCode
     envCallbackDisc { accessToken := "at" }
     rfl rfl rfl (by decide) (by decide) rfl rfl rfl rfl rfl rfl rfl⟩
